import Mathlib

/-!
Shallow embedding of the VxWorks UVC camera driver (src: USB_Header.c together
with its header USB_Header.h).  The development models the four parts of the
code that the verification targets: the YUV422-to-RGB pixel converter
(YUV2RGB), the isochronous-packet frame reassembler
(Isochronous_Completion_Callback), the probe/commit negotiation sequence
(Add_Device_Callback with Control_Transfer and Control_Completion_Callback),
and the PPM artifact write loop (dump_ppm).  Machine integers are modelled as
Nat with explicit reduction modulo 2^16 (UINT16 frameCount) and 2^32 (UINT32
offset and memcpy lengths); the C int arithmetic in YUV2RGB fits comfortably
inside 32 bits, so it is modelled as unbounded Int, with the arithmetic right
shift `>> 8` rendered as flooring division by 256.
-/

namespace UVC

/-- Macro HEADER_LENGTH from USB_Header.h: the UVC stream header is 12 bytes. -/
def HEADER_LENGTH : Nat := 12

/-- Macro NUMBER_OF_ISOCHRONOUS_PACKETS from USB_Header.h. -/
def NUMBER_OF_ISOCHRONOUS_PACKETS : Nat := 12

/-- Macro ISOCHRONOUS_BUFFER_SIZE from USB_Header.h: per-packet slot size. -/
def ISOCHRONOUS_BUFFER_SIZE : Nat := 944

/-- Macro HRES from USB_Header.h. -/
def HRES : Nat := 160

/-- Macro VRES from USB_Header.h. -/
def VRES : Nat := 120

/-- Macro FRAME_COUNT from USB_Header.h: the initial frame quota. -/
def FRAME_COUNT : Nat := 500

/-- Capacity of the global image_buffer, declared UCHAR image_buffer[HRES*VRES*2]. -/
def IMAGE_BUFFER_CAPACITY : Nat := HRES * VRES * 2

/-- Modulus of the UINT16 type (frameCount). -/
def U16 : Nat := 2 ^ 16

/-- Modulus of the UINT32 type (offset, memcpy lengths). -/
def U32 : Nat := 2 ^ 32

/-- Macro USB_DIRECTION_OUT from USB_Header.h. -/
def USB_DIRECTION_OUT : Nat := 0x21

/-- Macro USB_DIRECTION_IN from USB_Header.h. -/
def USB_DIRECTION_IN : Nat := 0xA1

/-- Macro USB_SET_CURRENT from USB_Header.h. -/
def USB_SET_CURRENT : Nat := 0x01

/-- Macro USB_GET_CURRENT from USB_Header.h. -/
def USB_GET_CURRENT : Nat := 0x81

/-- Macro UVC_VS_PROBE_CONTROL from USB_Header.h. -/
def UVC_VS_PROBE_CONTROL : Nat := 0x100

/-- Macro UVC_VS_COMMIT_CONTROL from USB_Header.h. -/
def UVC_VS_COMMIT_CONTROL : Nat := 0x200

/-- YUV2RGB from USB_Header.c lines 966-1017, translated statement by
statement.  The C code computes c, d, e, f, the three fixed-point linear
combinations shifted right by 8 (arithmetic shift on this target, i.e.
flooring division by 256), then clamps each channel first above 255 and then
below 0, in that order. -/
def YUV2RGB (y u v : Int) : Int × Int × Int :=
  let c := y - 16
  let d := u - 128
  let e := v - 128
  let f := 298 * c
  let r1 := Int.fdiv (f + 409 * e + 128) 256
  let g1 := Int.fdiv (f - 100 * d - 208 * e + 128) 256
  let b1 := Int.fdiv (f + 516 * d + 128) 256
  let r2 := if r1 > 255 then 255 else r1
  let g2 := if g1 > 255 then 255 else g1
  let b2 := if b1 > 255 then 255 else b1
  let r3 := if r2 < 0 then 0 else r2
  let g3 := if g2 < 0 then 0 else g2
  let b3 := if b2 < 0 then 0 else b2
  (r3, g3, b3)

/-- Saturating clamp of an integer to the byte range 0..255, as the spec words
it ("saturate below 0 and above 255"). -/
def clamp (x : Int) : Int := if x < 0 then 0 else if x > 255 then 255 else x

/-- The conversion as the spec's section 4.4 writes it: each channel is one
fixed-point linear combination, shifted right by 8 and clamped to 0..255. -/
def yuv2rgbSpec (y u v : Int) : Int × Int × Int :=
  (clamp (Int.fdiv (298 * (y - 16) + 409 * (v - 128) + 128) 256),
   clamp (Int.fdiv (298 * (y - 16) - 100 * (u - 128) - 208 * (v - 128) + 128) 256),
   clamp (Int.fdiv (298 * (y - 16) + 516 * (u - 128) + 128) 256))

/-- Observable actions performed by the reassembler loop of
Isochronous_Completion_Callback and relevant to buffer ownership: spawning the
processImage conversion task, taking the binary semaphore synch_sem, the
memset that clears image_buffer, the memcpy of payload bytes into
image_buffer (destination offset and byte count), and the diagnostic log of a
packet whose per-packet nStatus is not USBHST_SUCCESS. -/
inductive Ev where
  | spawn : Ev
  | takeSem : Ev
  | clearBuf : Ev
  | write (off len : Nat) : Ev
  | logStatus : Ev
deriving DecidableEq, Repr

/-- One isochronous packet as the callback sees it: the device-written uLength
field of its USBHST_ISO_PACKET_DESC (a UINT32), the FID bit extracted from
byte 1 of its stream header (pTransferBuffer[slot + 1] & 0x01), and whether
its per-packet nStatus equals USBHST_SUCCESS. -/
structure Packet where
  uLength : Nat
  fid : Bool
  ok : Bool
deriving DecidableEq, Repr

/-- The reassembler's global state in USB_Header.c: mem_h (the stored FID
bit), offset (UINT32 write offset into image_buffer), frameCount (UINT16
remaining-frame quota), aborted and first (UINT8 flags used as booleans).
The global end_of_image is written (set to 1 at each boundary) but never read
anywhere in the source, so it is omitted from the state. -/
structure ReState where
  mem_h : Bool
  offset : Nat
  frameCount : Nat
  aborted : Bool
  first : Bool
deriving DecidableEq, Repr

/-- The memcpy byte count (pIsochronous_Packet_Descriptor[i].uLength) -
HEADER_LENGTH, computed in unsigned 32-bit arithmetic: it wraps modulo 2^32
when uLength < 12. -/
def copyLen (len : Nat) : Nat := (len + (U32 - HEADER_LENGTH)) % U32

/-- The body of the per-packet branch of the loop in
Isochronous_Completion_Callback (USB_Header.c lines 763-806), before the
trailing nStatus check.  A packet whose uLength equals HEADER_LENGTH is left
alone.  Otherwise, if the packet's FID bit differs from mem_h the code stores
the new FID, resets offset to 0, decrements frameCount (UINT16), sets aborted
when the decremented count is 0, spawns processImage on image_buffer, sets
first, clears image_buffer with memset, and copies this packet's payload at
offset 0; if the FID matches, the code first takes synch_sem when first is
set, then copies the payload at the current offset.  Offsets and copy lengths
are reduced modulo 2^32 as the UINT32 variables are. -/
def packetStep (s : ReState) (p : Packet) : ReState × List Ev :=
  if p.uLength ≠ HEADER_LENGTH then
    if s.mem_h ≠ p.fid then
      let fc := (s.frameCount + (U16 - 1)) % U16
      let ab := if fc = 0 then true else s.aborted
      let cl := copyLen p.uLength
      ({ mem_h := p.fid, offset := (0 + cl) % U32, frameCount := fc,
         aborted := ab, first := true },
       [Ev.spawn, Ev.clearBuf, Ev.write 0 cl])
    else
      let cl := copyLen p.uLength
      ({ s with offset := (s.offset + cl) % U32, first := false },
       if s.first then [Ev.takeSem, Ev.write s.offset cl] else [Ev.write s.offset cl])
  else (s, [])

/-- One full loop iteration of Isochronous_Completion_Callback for packet p:
the payload branch above followed by the per-packet nStatus check, which only
logs a message and issues a continue that, standing last in the loop body,
changes nothing. -/
def procPacket (s : ReState) (p : Packet) : ReState × List Ev :=
  ((packetStep s p).1, (packetStep s p).2 ++ if p.ok then [] else [Ev.logStatus])

/-- State component of one loop iteration. -/
def stepSt (s : ReState) (p : Packet) : ReState := (packetStep s p).1

/-- Processing of a sequence of packets in order (the callback's for loop,
possibly across several completed batches). -/
def procList (s : ReState) (ps : List Packet) : ReState := ps.foldl stepSt s

/-- The resubmission decision at the end of Isochronous_Completion_Callback:
the URB is submitted again exactly when the aborted flag is clear
(USB_Header.c lines 825-828). -/
def resubmit (s : ReState) : Bool := !s.aborted

/-- Number of frame-boundary events (FID toggles seen on packets whose length
differs from HEADER_LENGTH) along a packet sequence, starting from stored FID
bit h.  This mirrors exactly the guard structure of packetStep. -/
def toggleCount (h : Bool) : List Packet → Nat
  | [] => 0
  | p :: ps =>
    if p.uLength ≠ HEADER_LENGTH then
      if h ≠ p.fid then 1 + toggleCount p.fid ps else toggleCount h ps
    else toggleCount h ps

/-- The reassembler state after fill_global and camInit: the uninitialized
globals mem_h and offset are zero (C statics), fill_global sets first = 1,
frameCount = n (FRAME_COUNT in the source) and aborted = 0. -/
def mkInit (n : Nat) : ReState :=
  { mem_h := false, offset := 0, frameCount := n, aborted := false, first := true }

/-- The memcpy events of a trace. -/
def writeEvents (evs : List Ev) : List Ev :=
  evs.filter fun e => match e with
    | Ev.write _ _ => true
    | _ => false

/-- Outcome of one control transfer as Control_Transfer observes it: the URB
completes with USBHST_SUCCESS, completes with a failing status, or the
completion callback is invoked with a null URB pointer — in that last case
Control_Completion_Callback calls shutDown and returns without releasing the
event, so Control_Transfer's OS_WAIT_FOR_EVENT with OS_WAIT_INFINITE never
returns. -/
inductive CtOutcome where
  | ok : CtOutcome
  | fail : CtOutcome
  | nullUrb : CtOutcome
deriving DecidableEq, Repr

/-- The device side of the negotiation: the outcome of each of the three
control transfers issued by Add_Device_Callback, and the 26-byte parameter
block the device writes into the data buffer when the GET_CUR/PROBE transfer
succeeds. -/
structure NegoDevice where
  o1 : CtOutcome
  o2 : CtOutcome
  o3 : CtOutcome
  probeResp : List Nat
deriving DecidableEq, Repr

/-- Record of one issued control transfer: the setup packet fields
bmRequestType, bRequest, wValue, and the contents of the shared data buffer
on the wire (bytes sent for an OUT transfer, bytes received for an IN one). -/
structure CtRec where
  bmRequestType : Nat
  bRequest : Nat
  wValue : Nat
  payload : List Nat
deriving DecidableEq, Repr

/-- Result of the negotiation part of Add_Device_Callback: the status the
callback would return (none when it is blocked forever in an event wait),
whether shutDown deregistered the session, the control transfers actually
issued, and whether execution went on to the streaming steps (set interface,
pipe prepare, isochronous submissions). -/
structure NegoResult where
  result : Option Bool
  deregistered : Bool
  trace : List CtRec
  streaming : Bool
deriving DecidableEq, Repr

/-- One Control_Transfer call (USB_Header.c lines 614-724) on the shared data
buffer: it submits the URB and blocks on the completion event.  On success an
IN transfer leaves the device's response in the buffer and an OUT transfer
leaves it unchanged; on a failing status the buffer is returned as is; on a
null completion object the call never returns (status none). -/
def ctransfer (dir req val : Nat) (outc : CtOutcome) (resp buf : List Nat) :
    Option Bool × List Nat × CtRec :=
  match outc with
  | CtOutcome.ok =>
    let buf' := if dir = USB_DIRECTION_IN then resp else buf
    (some true, buf', ⟨dir, req, val, buf'⟩)
  | CtOutcome.fail => (some false, buf, ⟨dir, req, val, buf⟩)
  | CtOutcome.nullUrb => (none, buf, ⟨dir, req, val, buf⟩)

/-- The negotiation sequence of Add_Device_Callback (USB_Header.c lines
275-350): SET_CUR/PROBE sending the buffer, GET_CUR/PROBE reading the
device's adjusted parameters back into the same buffer (the memset between
the two is commented out in the source), then SET_CUR/COMMIT sending the
buffer again.  Each failing transfer leads to shutDown plus return
USBHST_FAILURE; a hanging transfer leaves the callback blocked after
shutDown ran inside the completion callback. -/
def negotiate (dev : NegoDevice) (buf0 : List Nat) : NegoResult :=
  let r1 := ctransfer USB_DIRECTION_OUT USB_SET_CURRENT UVC_VS_PROBE_CONTROL dev.o1 dev.probeResp buf0
  match r1.1 with
  | none => ⟨none, true, [r1.2.2], false⟩
  | some false => ⟨some false, true, [r1.2.2], false⟩
  | some true =>
    let r2 := ctransfer USB_DIRECTION_IN USB_GET_CURRENT UVC_VS_PROBE_CONTROL dev.o2 dev.probeResp r1.2.1
    match r2.1 with
    | none => ⟨none, true, [r1.2.2, r2.2.2], false⟩
    | some false => ⟨some false, true, [r1.2.2, r2.2.2], false⟩
    | some true =>
      let r3 := ctransfer USB_DIRECTION_OUT USB_SET_CURRENT UVC_VS_COMMIT_CONTROL dev.o3 dev.probeResp r2.2.1
      match r3.1 with
      | none => ⟨none, true, [r1.2.2, r2.2.2, r3.2.2], false⟩
      | some false => ⟨some false, true, [r1.2.2, r2.2.2, r3.2.2], false⟩
      | some true => ⟨some true, false, [r1.2.2, r2.2.2, r3.2.2], true⟩

/-- The payload write loop of dump_ppm (USB_Header.c lines 1035-1041),
translated with the sequence of per-call acceptance counts made explicit:
each iteration calls write(dumpfd, p, size), which appends the first `a`
bytes of p to the file and returns a, then adds a to total, and the do-while
repeats while total < size.  Note the call always passes the original
pointer p and the full size.  The first component is the byte sequence
appended to the file, the second the final value of total.  The acceptance
list doubles as fuel; the loop in the source has no retry bound. -/
def writeChunks (p : List Nat) (size : Nat) : List Nat → Nat → List Nat × Nat
  | [], total => ([], total)
  | a :: rest, total =>
    let chunk := p.take a
    if total + a < size then
      let r := writeChunks p size rest (total + a)
      (chunk ++ r.1, r.2)
    else (chunk, total + a)

/-- The dump_ppm payload phase for a frame payload p: the write loop starting
from total = 0 with size = the payload length. -/
def dumpBody (p : List Nat) (accs : List Nat) : List Nat × Nat :=
  writeChunks p p.length accs 0

end UVC

namespace UVC

/-- The source's two sequential clamping passes (first above 255, then below 0)
coincide with a single saturating clamp to 0..255. -/
theorem clampChain (x : Int) :
    (if (if x > 255 then 255 else x) < 0 then 0 else (if x > 255 then 255 else x)) = clamp x := by
  unfold clamp
  split_ifs <;> omega

/-- C2: for every input byte triple (y,u,v), YUV2RGB computes the spec's exact
fixed-point formulas with saturation below 0 and above 255, and in particular
(16,128,128) maps to (0,0,0) and (235,128,128) maps to (255,255,255). -/
theorem yuv2rgb_matches_spec (y u v : Int)
    (hy : 0 ≤ y ∧ y ≤ 255) (hu : 0 ≤ u ∧ u ≤ 255) (hv : 0 ≤ v ∧ v ≤ 255) :
    YUV2RGB y u v = yuv2rgbSpec y u v
    ∧ YUV2RGB 16 128 128 = (0, 0, 0)
    ∧ YUV2RGB 235 128 128 = (255, 255, 255) := by
  refine ⟨?_, by decide, by decide⟩
  simp only [YUV2RGB, yuv2rgbSpec, Prod.mk.injEq]
  exact ⟨clampChain _, clampChain _, clampChain _⟩

/-- Witness for C2, instantiated at the fixture inputs of the claim. -/
theorem yuv2rgb_matches_spec_w :
    YUV2RGB 16 128 128 = yuv2rgbSpec 16 128 128
    ∧ YUV2RGB 16 128 128 = (0, 0, 0)
    ∧ YUV2RGB 235 128 128 = (255, 255, 255) :=
  yuv2rgb_matches_spec 16 128 128 (by decide) (by decide) (by decide)

/-- C1 (evidence of the code bug): on a frame-boundary packet (FID bit
differs, length 944) the callback's trace is spawn of the conversion task,
then the memset clearing image_buffer, then the memcpy of the new frame's
first 932 payload bytes — with no semTake anywhere in it: the semaphore is
acquired only at the next same-FID packet (the first flag is left set).  The
claim requires the acquire to precede the clear and the first payload write. -/
theorem boundary_clears_and_writes_without_semTake :
    procPacket ⟨false, 38400, 500, false, false⟩ ⟨944, true, true⟩ =
      (⟨true, 932, 499, false, true⟩, [Ev.spawn, Ev.clearBuf, Ev.write 0 932])
    ∧ Ev.takeSem ∉ [Ev.spawn, Ev.clearBuf, Ev.write 0 932] := by
  exact ⟨by decide, by decide⟩

set_option maxRecDepth 8000 in
/-- C5 (evidence of the code bug): starting from the code's initial state,
42 packets of the maximal reported length 944 bytes with an unchanged FID
bit drive the write offset to 42 * 932 = 39144, beyond the image_buffer
capacity HRES * VRES * 2 = 38400; no copy is ever rejected. -/
theorem offset_exceeds_capacity_unchecked :
    (procList (mkInit FRAME_COUNT) (List.replicate 42 ⟨944, false, true⟩)).offset = 39144
    ∧ IMAGE_BUFFER_CAPACITY = 38400 ∧ 38400 < 39144 := by
  exact ⟨by decide, by decide, by decide⟩

/-- C6 (evidence of the code bug): a packet whose per-packet status is not
USBHST_SUCCESS but whose length is 944 still has its 932 payload bytes
copied into image_buffer — the nStatus check runs only after the copy, and
its continue, standing last in the loop body, skips nothing. -/
theorem bad_status_packet_payload_still_written :
    procPacket (mkInit FRAME_COUNT) ⟨944, false, false⟩ =
      ({ mkInit FRAME_COUNT with offset := 932, first := false },
       [Ev.takeSem, Ev.write 0 932, Ev.logStatus]) := by
  decide

/-- C9 (evidence of the code bug): for the 6-byte payload 1,2,3,4,5,6, if the
first two write calls each accept 4 bytes, the loop terminates with total = 8
and the file body 1,2,3,4,1,2,3,4: the first four bytes are written twice and
the byte 5 (and 6) of the payload is never written, because every retry
passes the original pointer and the full size. -/
theorem short_write_restarts_from_buffer_start :
    dumpBody [1, 2, 3, 4, 5, 6] [4, 4] = ([1, 2, 3, 4, 1, 2, 3, 4], 8)
    ∧ [1, 2, 3, 4, 1, 2, 3, 4] ≠ [1, 2, 3, 4, 5, 6]
    ∧ 5 ∉ [1, 2, 3, 4, 1, 2, 3, 4] := by
  exact ⟨by decide, by decide, by decide⟩

/-- C10: a packet reporting uLength = 0 (< HEADER_LENGTH) is not skipped —
only length exactly 12 is — and its memcpy byte count is computed in UINT32
arithmetic as (0 - 12) mod 2^32 = 4294967284 = 2^32 - 12, so the packet is
treated as carrying a near-2^32-byte payload. -/
theorem zero_length_packet_copy_length_wraps :
    copyLen 0 = 4294967284
    ∧ 4294967284 = U32 - HEADER_LENGTH
    ∧ procPacket (mkInit FRAME_COUNT) ⟨0, false, true⟩ =
        ({ mkInit FRAME_COUNT with offset := 4294967284, first := false },
         [Ev.takeSem, Ev.write 0 4294967284]) := by
  exact ⟨by decide, by decide, by decide⟩

/-- A packet of header-only length leaves the state untouched. -/
theorem stepSt_skip (s : ReState) (p : Packet) (h : p.uLength = HEADER_LENGTH) :
    stepSt s p = s := by
  simp [stepSt, packetStep, h]

/-- State effect of a frame-boundary packet. -/
theorem stepSt_toggle (s : ReState) (p : Packet) (h1 : p.uLength ≠ HEADER_LENGTH)
    (h2 : s.mem_h ≠ p.fid) :
    stepSt s p =
      { mem_h := p.fid, offset := (0 + copyLen p.uLength) % U32,
        frameCount := (s.frameCount + (U16 - 1)) % U16,
        aborted := if (s.frameCount + (U16 - 1)) % U16 = 0 then true else s.aborted,
        first := true } := by
  simp [stepSt, packetStep, h1, h2]

/-- State effect of a frame-continuation packet. -/
theorem stepSt_cont (s : ReState) (p : Packet) (h1 : p.uLength ≠ HEADER_LENGTH)
    (h2 : s.mem_h = p.fid) :
    stepSt s p = { s with offset := (s.offset + copyLen p.uLength) % U32, first := false } := by
  simp [stepSt, packetStep, h1, h2]

/-- The aborted flag, once set, survives any packet. -/
theorem stepSt_aborted_mono (s : ReState) (p : Packet) (h : s.aborted = true) :
    (stepSt s p).aborted = true := by
  by_cases h1 : p.uLength = HEADER_LENGTH
  · rw [stepSt_skip s p h1]; exact h
  · by_cases h2 : s.mem_h = p.fid
    · rw [stepSt_cont s p h1 h2]; exact h
    · rw [stepSt_toggle s p h1 h2]
      simp [h]

/-- Unfolding lemma: the empty packet sequence changes nothing. -/
theorem procList_nil (s : ReState) : procList s [] = s := rfl

/-- Unfolding lemma: processing a packet sequence steps through its head. -/
theorem procList_cons (s : ReState) (p : Packet) (ps : List Packet) :
    procList s (p :: ps) = procList (stepSt s p) ps := rfl

/-- The aborted flag, once set, survives any packet sequence. -/
theorem procList_aborted_mono (qs : List Packet) :
    ∀ s : ReState, s.aborted = true → (procList s qs).aborted = true := by
  induction qs with
  | nil => intro s h; exact h
  | cons p ps ih =>
    intro s h
    rw [procList_cons]
    exact ih (stepSt s p) (stepSt_aborted_mono s p h)

/-- Main quota invariant: from a not-yet-aborted state with quota between 1
and 2^16 - 1, the run aborts exactly when the number of frame-boundary events
reaches the quota, and while it has not, the quota decreases by exactly the
number of boundary events. -/
theorem quota_run (ps : List Packet) :
    ∀ s : ReState, s.aborted = false → 0 < s.frameCount → s.frameCount < U16 →
    (((procList s ps).aborted = true) ↔ s.frameCount ≤ toggleCount s.mem_h ps)
    ∧ (toggleCount s.mem_h ps < s.frameCount →
        (procList s ps).frameCount = s.frameCount - toggleCount s.mem_h ps) := by
  induction ps with
  | nil =>
    intro s hab hpos _
    rw [procList_nil]
    constructor
    · rw [hab]
      simp only [toggleCount]
      constructor
      · intro h; cases h
      · intro h; omega
    · intro _
      simp [toggleCount]
  | cons p ps ih =>
    intro s hab hpos hlt
    by_cases h1 : p.uLength = HEADER_LENGTH
    · have ht : toggleCount s.mem_h (p :: ps) = toggleCount s.mem_h ps := by
        simp [toggleCount, h1]
      rw [procList_cons, stepSt_skip s p h1, ht]
      exact ih s hab hpos hlt
    · by_cases h2 : s.mem_h = p.fid
      · have ht : toggleCount s.mem_h (p :: ps) = toggleCount s.mem_h ps := by
          simp [toggleCount, h1, h2]
        rw [procList_cons, stepSt_cont s p h1 h2, ht]
        have hres := ih { s with offset := (s.offset + copyLen p.uLength) % U32, first := false }
          (by simpa using hab) (by simpa using hpos) (by simpa using hlt)
        simpa using hres
      · have ht : toggleCount s.mem_h (p :: ps) = 1 + toggleCount p.fid ps := by
          simp [toggleCount, h1, h2]
        have hfc : (s.frameCount + (U16 - 1)) % U16 = s.frameCount - 1 := by
          unfold U16 at hlt ⊢
          omega
        rw [procList_cons, stepSt_toggle s p h1 h2, ht, hfc]
        by_cases hone : s.frameCount = 1
        · have habt : (if s.frameCount - 1 = 0 then true else s.aborted) = true := by
            simp [hone]
          rw [habt]
          refine ⟨?_, ?_⟩
          · have hmono := procList_aborted_mono ps
              { mem_h := p.fid, offset := (0 + copyLen p.uLength) % U32,
                frameCount := s.frameCount - 1, aborted := true, first := true } rfl
            simp only [hmono]
            constructor
            · intro _; omega
            · intro _; trivial
          · intro hcon
            exact absurd hcon (by omega)
        · have habt : (if s.frameCount - 1 = 0 then true else s.aborted) = s.aborted := by
            have hne : s.frameCount - 1 ≠ 0 := by omega
            simp [hne]
          rw [habt]
          have hres := ih
            { mem_h := p.fid, offset := (0 + copyLen p.uLength) % U32,
              frameCount := s.frameCount - 1, aborted := s.aborted, first := true }
            hab (by show 0 < s.frameCount - 1; omega)
            (by show s.frameCount - 1 < U16; unfold U16 at hlt ⊢; omega)
          dsimp only at hres
          refine ⟨?_, ?_⟩
          · rw [hres.1]
            omega
          · intro hcon
            rw [hres.2 (by omega)]
            omega

/-- C3: a packet of header-only length (12 bytes) is skipped entirely — the
state, including mem_h, offset and frameCount, is unchanged and no payload
byte is written even when its FID bit differs — and, on packets of any other
length, a frame boundary (the frameCount decrement) occurs exactly when the
packet's FID bit differs from the stored mem_h, regardless of byte counts. -/
theorem header_only_skipped_fid_sole_boundary (s : ReState) (p : Packet) :
    (p.uLength = HEADER_LENGTH →
      procPacket s p = (s, if p.ok then [] else [Ev.logStatus])
      ∧ writeEvents (procPacket s p).2 = [])
    ∧ (p.uLength ≠ HEADER_LENGTH →
      ((stepSt s p).frameCount ≠ s.frameCount ↔ s.mem_h ≠ p.fid)) := by
  constructor
  · intro h
    constructor
    · simp [procPacket, packetStep, h]
    · by_cases hok : p.ok <;> simp [procPacket, packetStep, writeEvents, h, hok]
  · intro h1
    by_cases h2 : s.mem_h = p.fid
    · rw [stepSt_cont s p h1 h2]
      simp [h2]
    · rw [stepSt_toggle s p h1 h2]
      constructor
      · intro _; exact h2
      · intro _
        show (s.frameCount + (U16 - 1)) % U16 ≠ s.frameCount
        unfold U16
        omega

/-- Witness for C3: a header-only packet with a differing FID bit and a bad
status leaves the initial state untouched with no write, and a full-length
packet with a differing FID bit is detected as a boundary. -/
theorem header_only_skipped_fid_sole_boundary_w :
    (procPacket (mkInit FRAME_COUNT) ⟨12, true, false⟩ =
        (mkInit FRAME_COUNT, [Ev.logStatus])
      ∧ writeEvents (procPacket (mkInit FRAME_COUNT) ⟨12, true, false⟩).2 = [])
    ∧ ((stepSt (mkInit FRAME_COUNT) ⟨944, true, true⟩).frameCount
        ≠ (mkInit FRAME_COUNT).frameCount
      ↔ (mkInit FRAME_COUNT).mem_h ≠ true) :=
  ⟨(header_only_skipped_fid_sole_boundary (mkInit FRAME_COUNT) ⟨12, true, false⟩).1 rfl,
   (header_only_skipped_fid_sole_boundary (mkInit FRAME_COUNT) ⟨944, true, true⟩).2 (by decide)⟩

/-- C4 (amended): starting from a quota of N with 0 < N < 2^16, the abort
flag is set exactly when the number of frame-boundary events reaches N; while
fewer than N boundary events have occurred the quota equals N minus their
number (so it is nonnegative and has not wrapped); and once the abort flag is
set, no completed transfer is ever resubmitted.  What the original claim adds
— that the quota can never be decremented past zero — fails: boundary events
processed after the abort flag is set keep decrementing the UINT16 counter,
wrapping it from 0 to 65535 (see the counterexample). -/
theorem frame_quota_abort (N : Nat) (ps : List Packet) (h1 : 0 < N) (h2 : N < U16) :
    ((procList (mkInit N) ps).aborted = true ↔ N ≤ toggleCount false ps)
    ∧ (toggleCount false ps < N →
        (procList (mkInit N) ps).frameCount = N - toggleCount false ps)
    ∧ (∀ s : ReState, ∀ qs : List Packet, s.aborted = true →
        resubmit (procList s qs) = false) := by
  have h := quota_run ps (mkInit N) rfl h1 h2
  refine ⟨h.1, h.2, ?_⟩
  intro s qs hab
  simp [resubmit, procList_aborted_mono qs s hab]

/-- Witness for C4 at quota 1 and a single boundary packet. -/
theorem frame_quota_abort_w :
    ((procList (mkInit 1) [⟨944, true, true⟩]).aborted = true
      ↔ 1 ≤ toggleCount false [⟨944, true, true⟩])
    ∧ (toggleCount false [⟨944, true, true⟩] < 1 →
        (procList (mkInit 1) [⟨944, true, true⟩]).frameCount
          = 1 - toggleCount false [⟨944, true, true⟩])
    ∧ (∀ s : ReState, ∀ qs : List Packet, s.aborted = true →
        resubmit (procList s qs) = false) :=
  frame_quota_abort 1 [⟨944, true, true⟩] (by decide) (by decide)

/-- C7: for every successful negotiation the whole run is determined: the
probe request sends the initial buffer, the GET_CUR/PROBE transfer returns
the device's 26-byte parameter block, and the SET_CUR/COMMIT transfer sends
exactly that block byte for byte — the shared data buffer is not touched
between the two, so the device is authoritative over the committed
parameters. -/
theorem commit_payload_equals_probe_response (dev : NegoDevice) (buf0 : List Nat)
    (h26 : dev.probeResp.length = 26)
    (h1 : dev.o1 = CtOutcome.ok) (h2 : dev.o2 = CtOutcome.ok) (h3 : dev.o3 = CtOutcome.ok) :
    negotiate dev buf0 =
      ⟨some true, false,
       [⟨USB_DIRECTION_OUT, USB_SET_CURRENT, UVC_VS_PROBE_CONTROL, buf0⟩,
        ⟨USB_DIRECTION_IN, USB_GET_CURRENT, UVC_VS_PROBE_CONTROL, dev.probeResp⟩,
        ⟨USB_DIRECTION_OUT, USB_SET_CURRENT, UVC_VS_COMMIT_CONTROL, dev.probeResp⟩],
       true⟩ := by
  simp [negotiate, ctransfer, h1, h2, h3, USB_DIRECTION_IN, USB_DIRECTION_OUT]

/-- Witness for C7 with a concrete device response. -/
theorem commit_payload_equals_probe_response_w :
    negotiate ⟨CtOutcome.ok, CtOutcome.ok, CtOutcome.ok, List.replicate 26 7⟩
        (List.replicate 26 0) =
      ⟨some true, false,
       [⟨USB_DIRECTION_OUT, USB_SET_CURRENT, UVC_VS_PROBE_CONTROL, List.replicate 26 0⟩,
        ⟨USB_DIRECTION_IN, USB_GET_CURRENT, UVC_VS_PROBE_CONTROL, List.replicate 26 7⟩,
        ⟨USB_DIRECTION_OUT, USB_SET_CURRENT, UVC_VS_COMMIT_CONTROL, List.replicate 26 7⟩],
       true⟩ :=
  commit_payload_equals_probe_response
    ⟨CtOutcome.ok, CtOutcome.ok, CtOutcome.ok, List.replicate 26 7⟩
    (List.replicate 26 0) (by decide) rfl rfl rfl

/-- C8 (amended): a negotiation transfer completing with a failing status
aborts negotiation — the session is deregistered, USBHST_FAILURE is returned
to the caller, the failed transfer is issued exactly once with no retry, and
no later negotiation transfer or streaming step runs; a transfer whose
completion delivers a null URB likewise deregisters the session and stops all
further steps, but reports no error: the completion event is never released,
so the callback blocks forever (result none). -/
theorem negotiation_failure_behavior (dev : NegoDevice) (buf0 : List Nat) :
    (dev.o1 = CtOutcome.fail → negotiate dev buf0 =
      ⟨some false, true,
       [⟨USB_DIRECTION_OUT, USB_SET_CURRENT, UVC_VS_PROBE_CONTROL, buf0⟩], false⟩)
    ∧ (dev.o1 = CtOutcome.nullUrb → negotiate dev buf0 =
      ⟨none, true,
       [⟨USB_DIRECTION_OUT, USB_SET_CURRENT, UVC_VS_PROBE_CONTROL, buf0⟩], false⟩)
    ∧ (dev.o1 = CtOutcome.ok → dev.o2 = CtOutcome.fail → negotiate dev buf0 =
      ⟨some false, true,
       [⟨USB_DIRECTION_OUT, USB_SET_CURRENT, UVC_VS_PROBE_CONTROL, buf0⟩,
        ⟨USB_DIRECTION_IN, USB_GET_CURRENT, UVC_VS_PROBE_CONTROL, buf0⟩], false⟩)
    ∧ (dev.o1 = CtOutcome.ok → dev.o2 = CtOutcome.nullUrb → negotiate dev buf0 =
      ⟨none, true,
       [⟨USB_DIRECTION_OUT, USB_SET_CURRENT, UVC_VS_PROBE_CONTROL, buf0⟩,
        ⟨USB_DIRECTION_IN, USB_GET_CURRENT, UVC_VS_PROBE_CONTROL, buf0⟩], false⟩)
    ∧ (dev.o1 = CtOutcome.ok → dev.o2 = CtOutcome.ok → dev.o3 = CtOutcome.fail →
      negotiate dev buf0 =
      ⟨some false, true,
       [⟨USB_DIRECTION_OUT, USB_SET_CURRENT, UVC_VS_PROBE_CONTROL, buf0⟩,
        ⟨USB_DIRECTION_IN, USB_GET_CURRENT, UVC_VS_PROBE_CONTROL, dev.probeResp⟩,
        ⟨USB_DIRECTION_OUT, USB_SET_CURRENT, UVC_VS_COMMIT_CONTROL, dev.probeResp⟩], false⟩)
    ∧ (dev.o1 = CtOutcome.ok → dev.o2 = CtOutcome.ok → dev.o3 = CtOutcome.nullUrb →
      negotiate dev buf0 =
      ⟨none, true,
       [⟨USB_DIRECTION_OUT, USB_SET_CURRENT, UVC_VS_PROBE_CONTROL, buf0⟩,
        ⟨USB_DIRECTION_IN, USB_GET_CURRENT, UVC_VS_PROBE_CONTROL, dev.probeResp⟩,
        ⟨USB_DIRECTION_OUT, USB_SET_CURRENT, UVC_VS_COMMIT_CONTROL, dev.probeResp⟩], false⟩) := by
  refine ⟨?_, ?_, ?_, ?_, ?_, ?_⟩
  · intro h1
    simp [negotiate, ctransfer, h1, USB_DIRECTION_IN, USB_DIRECTION_OUT]
  · intro h1
    simp [negotiate, ctransfer, h1, USB_DIRECTION_IN, USB_DIRECTION_OUT]
  · intro h1 h2
    simp [negotiate, ctransfer, h1, h2, USB_DIRECTION_IN, USB_DIRECTION_OUT]
  · intro h1 h2
    simp [negotiate, ctransfer, h1, h2, USB_DIRECTION_IN, USB_DIRECTION_OUT]
  · intro h1 h2 h3
    simp [negotiate, ctransfer, h1, h2, h3, USB_DIRECTION_IN, USB_DIRECTION_OUT]
  · intro h1 h2 h3
    simp [negotiate, ctransfer, h1, h2, h3, USB_DIRECTION_IN, USB_DIRECTION_OUT]

/-- Witness for C8 at a device failing the first transfer. -/
theorem negotiation_failure_behavior_w :
    negotiate ⟨CtOutcome.fail, CtOutcome.ok, CtOutcome.ok, []⟩ [] =
      ⟨some false, true,
       [⟨USB_DIRECTION_OUT, USB_SET_CURRENT, UVC_VS_PROBE_CONTROL, []⟩], false⟩ :=
  (negotiation_failure_behavior ⟨CtOutcome.fail, CtOutcome.ok, CtOutcome.ok, []⟩ []).1 rfl

/-- C4 (counterexample to the claim as stated): with a quota of 1, a batch
containing two frame-boundary packets sets the abort flag at the first
boundary but keeps processing, and the second boundary decrements the UINT16
quota from 0, wrapping it to 65535 — the quota does wrap below zero. -/
theorem quota_wraps_past_zero :
    (procList (mkInit 1) [⟨944, true, true⟩, ⟨944, false, true⟩]).frameCount = 65535
    ∧ (procList (mkInit 1) [⟨944, true, true⟩, ⟨944, false, true⟩]).aborted = true := by
  exact ⟨by decide, by decide⟩

/-- C8 (counterexample to the claim as stated): when the first negotiation
transfer's completion delivers a null URB, the session is deregistered (the
completion callback calls shutDown) but no fatal error is reported to the
caller: the completion event is never released, Control_Transfer stays in
its infinite wait, and Add_Device_Callback never returns a status. -/
theorem null_urb_deregisters_but_reports_nothing :
    (negotiate ⟨CtOutcome.nullUrb, CtOutcome.ok, CtOutcome.ok, []⟩ []).result = none
    ∧ (negotiate ⟨CtOutcome.nullUrb, CtOutcome.ok, CtOutcome.ok, []⟩ []).deregistered = true := by
  exact ⟨by decide, by decide⟩

end UVC
